import Mathlib

/-!
Shallow embedding of `src/table_related_benchmarks/run_tableqa_execution_eval.py`
(the table-QA execution-evaluation pipeline) and theorems about it.

The per-item evaluator `eval_outputs_parallel`, the classifier
`execution_eval`, and the batch dispatch in `main` are translated from the
Python source.  Helpers that live outside `src/` (`utils.filter_code`,
`utils.timeout`, `get_tool`/`tool.run`, joblib's `Parallel`, pandas
`head`/`to_markdown`) are modelled from the spec, each marked in its doc
comment.
-/

namespace TableQAEval

/-! ### Character-list utilities used to embed the regex
`re.compile(r"error|exception", re.IGNORECASE)` and Python's substring
test (`in`). -/

/-- `chkPref p l` decides whether `p` is a leading segment of `l`
(character-by-character comparison). -/
def chkPref : List Char → List Char → Bool
  | [], _ => true
  | _ :: _, [] => false
  | a :: as, b :: bs => a == b && chkPref as bs

/-- `chkInf p l` decides whether `p` occurs contiguously anywhere in `l`;
this embeds both Python's `in` substring test and `re.search` with a
literal alternative pattern. -/
def chkInf : List Char → List Char → Bool
  | p, [] => p.isEmpty
  | p, l@(_ :: bs) => chkPref p l || chkInf p bs

/-- Python's `pat in s` substring containment on strings. -/
def strContains (s pat : String) : Bool :=
  chkInf pat.toList s.toList

/-- `re.IGNORECASE` is embedded by lowering every character before the
search (the pattern `error|exception` is already lower-case). -/
def lowerList (l : List Char) : List Char :=
  l.map Char.toLower

/-- Embeds `pattern.search(observe)` for
`pattern = re.compile(r"error|exception", re.IGNORECASE)`:
true iff `observe` contains `error` or `exception` case-insensitively. -/
def hasErrorPattern (s : String) : Bool :=
  chkInf "error".toList (lowerList s.toList) ||
    chkInf "exception".toList (lowerList s.toList)

/-! ### The classifier `execution_eval` (source lines 128-140). -/

/-- The argument Python passes to `re.Pattern.search`.  The source only ever
passes strings, but `execution_eval` guards the search with a bare
`except:`, so the embedding keeps a constructor for any non-string value on
which the search itself would raise `TypeError`. -/
inductive ObserveVal where
  | str (s : String)
  | nonStr (desc : String)
  deriving DecidableEq

/-- Embeds `pattern.search(observe)` inside the `try` of `execution_eval`:
on a string it reports whether the case-insensitive pattern
`error|exception` occurs; on a non-string argument `re.search` raises
`TypeError`, embedded as `Except.error`. -/
def patternSearch : ObserveVal → Except String Bool
  | ObserveVal.str s => Except.ok (hasErrorPattern s)
  | ObserveVal.nonStr _ => Except.error "TypeError"

/-- `execution_eval` (source lines 128-140):
`res = not pattern.search(observe)` under `try`, with a bare
`except: res = True`. -/
def execution_eval (observe : ObserveVal) : Bool :=
  match patternSearch observe with
  | Except.ok found => !found
  | Except.error _ => true

/-! ### Data frames and the run-time value model. -/

/-- Modelled from the spec: an in-memory table (pandas `DataFrame`) is a
column header plus a list of rows of rendered cells. -/
structure DataFrame where
  cols : List String
  rows : List (List String)
  deriving DecidableEq

/-- Modelled from the spec: pandas `DataFrame.head`, keeping only the
first `n` rows (pandas default `n = 5`). -/
def DataFrame.head (d : DataFrame) (n : Nat := 5) : DataFrame :=
  { cols := d.cols, rows := d.rows.take n }

/-- One markdown table line: cells joined by pipes. -/
def mdRow (cells : List String) : String :=
  "| " ++ String.intercalate " | " cells ++ " |"

/-- Modelled from the spec: pandas `DataFrame.to_markdown(index=False)` —
header line, separator line, then one line per row. -/
def DataFrame.to_markdown (d : DataFrame) : String :=
  String.intercalate "\n"
    (mdRow d.cols :: mdRow (d.cols.map (fun _ => "---")) :: d.rows.map mdRow)

/-- The value produced by a completed `tool.run` call: the source only
distinguishes `isinstance(observe, pd.DataFrame)` from everything else,
whose `str()` rendering we carry directly. -/
inductive RunValue where
  | dataFrame (d : DataFrame)
  | other (s : String)
  deriving DecidableEq

/-- Modelled from the spec: the observable behaviour of running one
snippet inside `with timeout(15): tool.run(...)` (`utils.timeout`,
`TimeoutException`, `get_tool` and `tool.run` are not under `src/`).
A run either finishes with a value, exceeds the 15 s deadline (the signal
mechanism raises `TimeoutException` even inside an infinite loop),
raises `SystemExit`, or raises any other exception rendered by `str(e)`. -/
inductive ExecBehavior where
  | finished (v : RunValue)
  | timedOut
  | systemExit (msg : String)
  | raised (msg : String)
  deriving DecidableEq

/-! ### Code extraction and the per-item evaluator. -/

/-- The `CODE_PREFIX` constant prepended to every executed snippet
(source lines 36-47). -/
def CODE_PREFIX : String :=
  "import matplotlib.pyplot as plt\nfrom mplfonts import use_font\nimport pandas as pd\nimport numpy as np\nimport seaborn as sns\nimport warnings\n\nwarnings.filterwarnings(\"ignore\")\n# Fixing Chinese font issues\nuse_font(\"Noto Serif CJK SC\")\nplt.rcParams[\x27font.sans-serif\x27]=[\x27SimHei\x27]\nplt.rcParams[\x27axes.unicode_minus\x27]=False\n"

/-- The three-character fence delimiter of a code block. -/
def fenceChars : List Char := "```".toList

/-- Characters after the first fence delimiter, if any. -/
def afterFence : List Char → Option (List Char)
  | [] => none
  | a :: rest =>
    if chkPref fenceChars (a :: rest) then some ((a :: rest).drop 3)
    else afterFence rest

/-- Characters before the next fence delimiter, or `none` when the block
never closes. -/
def beforeFence : List Char → Option (List Char)
  | [] => none
  | a :: rest =>
    if chkPref fenceChars (a :: rest) then some []
    else
      match beforeFence rest with
      | none => none
      | some cs => some (a :: cs)

/-- Drops the language tag that may open a fenced block. -/
def stripLangTag (l : List Char) : List Char :=
  if chkPref "python\n".toList l then l.drop 7
  else if chkPref "python".toList l then l.drop 6
  else l

/-- Modelled from the spec: `utils.filter_code` (not under `src/`)
recovers the payload of the first complete fenced code block of the raw
model output and never raises; when no complete block is present it
returns the empty code string (a valid, non-error state). -/
def filter_code (raw : String) : String × String :=
  match afterFence raw.toList with
  | none => ("", raw)
  | some afterOpen =>
    match beforeFence afterOpen with
    | none => ("", raw)
    | some content => (String.mk (stripLangTag content), raw)

/-- One dataset record as consumed by `eval_outputs_parallel`: the fields
of `test_data` the function reads. -/
structure TestData where
  table_paths : List String
  df_names : List String
  query : String
  instruction : String
  table_info : String
  df_info_simple_str : String
  message : String
  deriving DecidableEq

/-- The per-item record `eval_result_sample` built at source lines
117-123. -/
structure EvalResultSample where
  code : String
  llm_output : String
  observe : String
  flag : Bool
  query : String
  table_paths : List String
  instruction : String
  deriving DecidableEq

/-- `df = [pd.read_csv(path, low_memory=False) for path in df_paths]`
(source line 77): loads left to right, and the first failing load raises
out of the comprehension.  `pd.read_csv` itself is outside `src/`, so the
loader is an oracle parameter. -/
def loadTables (loadCsv : String → Except String DataFrame) :
    List String → Except String (List DataFrame)
  | [] => Except.ok []
  | p :: ps =>
    match loadCsv p with
    | Except.error e => Except.error e
    | Except.ok d =>
      match loadTables loadCsv ps with
      | Except.error e => Except.error e
      | Except.ok ds => Except.ok (d :: ds)

/-- The body of the `try` at source lines 94-115, producing the `observe`
string: empty code short-circuits to the fixed `Code Error` message; a
snippet containing `df.explode("Candidate")` raises
`ValueError("df.explode error")`, caught by `except Exception` as
`Unexpected Error: df.explode error`; otherwise the snippet
`CODE_PREFIX + code` runs and the outcome is rendered per the
`except` clauses of lines 110-115. -/
def observeOf (run : List DataFrame → String → ExecBehavior)
    (df : List DataFrame) (code : String) : String :=
  if code = "" then "Code Error: output empty code.."
  else if strContains code "df.explode(\"Candidate\")" then
    "Unexpected Error: df.explode error"
  else
    match run df ( CODE_PREFIX ++ code) with
    | ExecBehavior.finished (RunValue.dataFrame d) => d.head.to_markdown
    | ExecBehavior.finished (RunValue.other s) => s
    | ExecBehavior.timedOut => "Timeout Error: code running time exceed 15s.."
    | ExecBehavior.systemExit msg => "SystemExit Error: " ++ msg
    | ExecBehavior.raised msg => "Unexpected Error: " ++ msg

/-- The record assembled at source lines 117-123 once the tables are
loaded: `code` from `filter_code`, the observation, its classification,
and the pass-through fields (`instruction` per the `args.slim` branch of
lines 79-88). -/
def mkSample (run : List DataFrame → String → ExecBehavior) (slim : Bool)
    (llm_output : String) (td : TestData) (df : List DataFrame) :
    EvalResultSample :=
  { code := (filter_code llm_output).1
    llm_output := llm_output
    observe := observeOf run df (filter_code llm_output).1
    flag := execution_eval (ObserveVal.str (observeOf run df (filter_code llm_output).1))
    query := td.query
    table_paths := td.table_paths
    instruction :=
      if slim then td.message
      else td.instruction.replace td.table_info td.df_info_simple_str }

/-- `eval_outputs_parallel` (source lines 68-125).  The table loads of
line 77 happen BEFORE the `try` of line 94, so a load error propagates out
of the function; everything after loading is infallible, ending in the
result record. -/
def eval_outputs_parallel (loadCsv : String → Except String DataFrame)
    (run : List DataFrame → String → ExecBehavior) (slim : Bool)
    (llm_output : String) (test_data : TestData) :
    Except String EvalResultSample :=
  match loadTables loadCsv test_data.table_paths with
  | Except.error e => Except.error e
  | Except.ok df => Except.ok (mkSample run slim llm_output test_data df)

/-- The batch dispatch of `main` (source lines 168-171):
`Parallel(n_jobs=48)(delayed(eval_outputs_parallel)(model_outputs[i],
test_datas[i], args) for i in range(len(test_datas)))`.  Modelled from the
spec: joblib collects results in dispatch order and re-raises the first
worker exception, rendered here as order-preserving sequential recursion.
Iteration is over `range(len(test_datas))`, so exhausting `model_outputs`
first raises `IndexError`, while surplus outputs are ignored. -/
def mainBatchEval (loadCsv : String → Except String DataFrame)
    (run : List DataFrame → String → ExecBehavior) (slim : Bool) :
    List String → List TestData → Except String (List EvalResultSample)
  | _, [] => Except.ok []
  | [], _ :: _ => Except.error "IndexError: list index out of range"
  | out :: outs, td :: tds =>
    match eval_outputs_parallel loadCsv run slim out td with
    | Except.error e => Except.error e
    | Except.ok r =>
      match mainBatchEval loadCsv run slim outs tds with
      | Except.error e => Except.error e
      | Except.ok rs => Except.ok (r :: rs)

/-! ### Accessors used to state claims about fallible results. -/

/-- Observation of a per-item evaluation, when it returned at all. -/
def resultObserve : Except String EvalResultSample → Option String
  | Except.ok r => some r.observe
  | Except.error _ => none

/-- Flag of a per-item evaluation, when it returned at all. -/
def resultFlag : Except String EvalResultSample → Option Bool
  | Except.ok r => some r.flag
  | Except.error _ => none

/-- Number of per-item results a batch produced, when it did not abort. -/
def batchLen : Except String (List EvalResultSample) → Option Nat
  | Except.ok rs => some rs.length
  | Except.error _ => none

/-- Present for comparison with the classifier embedded from the source:
the spec phrases the pass condition as the observation containing a
substring matching `/error|exception/` case-insensitively, stated here as
an existential decomposition of the lowered character list. -/
def specErrorMatch (s : String) : Prop :=
  ∃ pre pat post, (pat = "error".toList ∨ pat = "exception".toList) ∧
    lowerList s.toList = pre ++ pat ++ post

/-- Per-item evaluation as an optional record. -/
def resultOpt : Except String EvalResultSample → Option EvalResultSample
  | Except.ok r => some r
  | Except.error _ => none

/-- The `i`-th per-item record of a batch, when the batch produced any. -/
def batchGet : Except String (List EvalResultSample) → Nat → Option EvalResultSample
  | Except.ok rs, i => rs.get? i
  | Except.error _, _ => none

/-! ### Concrete inputs used by witnesses and counterexamples. -/

/-- A dataset record with a single (loadable) table source. -/
def tdSimple : TestData :=
  { table_paths := ["a.csv"], df_names := ["df1"], query := "q",
    instruction := "ins", table_info := "ti", df_info_simple_str := "dfi",
    message := "m" }

/-- A dataset record whose only table source fails to load under
`cexLoad`. -/
def tdBad : TestData :=
  { tdSimple with table_paths := ["bad.csv"] }

/-- A loader for which every source parses to an empty table. -/
def okLoad : String → Except String DataFrame :=
  fun _ => Except.ok { cols := [], rows := [] }

/-- A loader that fails exactly on `bad.csv`. -/
def cexLoad : String → Except String DataFrame :=
  fun p =>
    if p = "bad.csv" then Except.error "FileNotFoundError: bad.csv"
    else Except.ok { cols := [], rows := [] }

/-- A model output carrying one fenced snippet. -/
def outLoop : String :=
  "```python\nwhile True: pass\n```"

/-- A model output whose snippet contains the hazardous construct. -/
def outExplode : String :=
  "```python\ndf.explode(\"Candidate\")\n```"

/-- A 10,000-row single-column table. -/
def bigDf : DataFrame :=
  { cols := ["c"], rows := List.replicate 10000 ["v"] }

/-! ### Helper lemmas. -/

theorem chkPref_iff (p l : List Char) :
    chkPref p l = true ↔ ∃ t, l = p ++ t := by
  induction p generalizing l with
  | nil => simp [chkPref]
  | cons a as ih =>
    cases l with
    | nil => simp [chkPref]
    | cons b bs =>
      simp only [chkPref, Bool.and_eq_true, beq_iff_eq, ih, List.cons_append,
        List.cons.injEq]
      constructor
      · rintro ⟨rfl, t, rfl⟩; exact ⟨t, rfl, rfl⟩
      · rintro ⟨t, rfl, rfl⟩; exact ⟨rfl, t, rfl⟩

theorem chkInf_iff (p l : List Char) :
    chkInf p l = true ↔ ∃ pre post, l = pre ++ p ++ post := by
  induction l with
  | nil =>
    simp only [chkInf, List.isEmpty_iff]
    constructor
    · rintro rfl; exact ⟨[], [], rfl⟩
    · rintro ⟨pre, post, h⟩
      rcases List.append_eq_nil.mp h.symm with ⟨h1, h2⟩
      exact (List.append_eq_nil.mp h1).2
  | cons b bs ih =>
    simp only [chkInf, Bool.or_eq_true, chkPref_iff, ih]
    constructor
    · rintro (⟨t, ht⟩ | ⟨pre, post, rfl⟩)
      · exact ⟨[], t, by simp [ht]⟩
      · exact ⟨b :: pre, post, by simp⟩
    · rintro ⟨pre, post, h⟩
      cases pre with
      | nil => exact Or.inl ⟨post, by simpa using h⟩
      | cons c cs =>
        right
        refine ⟨cs, post, ?_⟩
        have := h
        simp only [List.cons_append, List.cons.injEq] at this
        exact this.2

theorem chkInf_append_right (p l l2 : List Char) (h : chkInf p l = true) :
    chkInf p (l ++ l2) = true := by
  rcases (chkInf_iff p l).mp h with ⟨pre, post, rfl⟩
  exact (chkInf_iff p _).mpr ⟨pre, post ++ l2, by simp⟩

theorem string_toList_append (a b : String) :
    (a ++ b).toList = a.toList ++ b.toList := rfl

theorem lowerList_append (a b : List Char) :
    lowerList (a ++ b) = lowerList a ++ lowerList b :=
  List.map_append Char.toLower a b

/-- Appending anything after a string already containing the pattern
still contains the pattern. -/
theorem hasErrorPattern_append_left (a b : String)
    (h : hasErrorPattern a = true) : hasErrorPattern (a ++ b) = true := by
  unfold hasErrorPattern at h ⊢
  rw [string_toList_append, lowerList_append]
  rcases Bool.or_eq_true_iff.mp h with h1 | h1
  · exact Bool.or_eq_true_iff.mpr (Or.inl (chkInf_append_right _ _ _ h1))
  · exact Bool.or_eq_true_iff.mpr (Or.inr (chkInf_append_right _ _ _ h1))

/-- The classifier on a string is the negation of the pattern search. -/
theorem execution_eval_str (s : String) :
    execution_eval (ObserveVal.str s) = !hasErrorPattern s := rfl

/-- Once the tables load, the per-item evaluation returns the assembled
record. -/
theorem eval_eq_ok (loadCsv : String → Except String DataFrame)
    (run : List DataFrame → String → ExecBehavior) (slim : Bool)
    (out : String) (td : TestData) (df : List DataFrame)
    (hdf : loadTables loadCsv td.table_paths = Except.ok df) :
    eval_outputs_parallel loadCsv run slim out td =
      Except.ok (mkSample run slim out td df) := by
  unfold eval_outputs_parallel
  rw [hdf]

/-- If every path of the list loads, the whole comprehension loads. -/
theorem loadTables_ok (loadCsv : String → Except String DataFrame)
    (ps : List String) (h : ∀ p ∈ ps, ∃ d, loadCsv p = Except.ok d) :
    ∃ ds, loadTables loadCsv ps = Except.ok ds := by
  induction ps with
  | nil => exact ⟨[], rfl⟩
  | cons p ps ih =>
    rcases h p (List.mem_cons_self p ps) with ⟨d, hd⟩
    rcases ih (fun q hq => h q (List.mem_cons_of_mem p hq)) with ⟨ds, hds⟩
    exact ⟨d :: ds, by simp [loadTables, hd, hds]⟩

/-- No pattern with at least one character occurs in the empty string. -/
theorem strContains_empty_false (pat : String) (hp : pat.toList.isEmpty = false) :
    strContains "" pat = false := by
  unfold strContains
  show chkInf pat.toList [] = false
  rw [show chkInf pat.toList [] = pat.toList.isEmpty from rfl]
  exact hp

/-- A string that contains a nonempty pattern is itself nonempty. -/
theorem ne_empty_of_strContains (s pat : String)
    (hp : pat.toList.isEmpty = false) (h : strContains s pat = true) :
    s ≠ "" := by
  intro hs
  rw [hs, strContains_empty_false pat hp] at h
  exact Bool.false_ne_true h

/-- Observations starting with a segment that already matches the error
pattern classify as failed, whatever follows. -/
theorem execution_eval_append_error (a b : String)
    (ha : hasErrorPattern a = true) :
    execution_eval (ObserveVal.str (a ++ b)) = false := by
  rw [execution_eval_str, hasErrorPattern_append_left a b ha]
  rfl

/-! ### Case lemmas for `observeOf`. -/

theorem observeOf_empty (run : List DataFrame → String → ExecBehavior)
    (df : List DataFrame) :
    observeOf run df "" = "Code Error: output empty code.." := rfl

theorem observeOf_explode (run : List DataFrame → String → ExecBehavior)
    (df : List DataFrame) (code : String)
    (hx : strContains code "df.explode(\"Candidate\")" = true) :
    observeOf run df code = "Unexpected Error: df.explode error" := by
  have hne : ¬ code = "" :=
    ne_empty_of_strContains code _ (by decide) hx
  unfold observeOf
  rw [if_neg hne, if_pos hx]

theorem observeOf_run_case (run : List DataFrame → String → ExecBehavior)
    (df : List DataFrame) (code : String) (hne : code ≠ "")
    (hnx : strContains code "df.explode(\"Candidate\")" = false) :
    observeOf run df code =
      match run df ( CODE_PREFIX ++ code) with
      | ExecBehavior.finished (RunValue.dataFrame d) => d.head.to_markdown
      | ExecBehavior.finished (RunValue.other s) => s
      | ExecBehavior.timedOut => "Timeout Error: code running time exceed 15s.."
      | ExecBehavior.systemExit msg => "SystemExit Error: " ++ msg
      | ExecBehavior.raised msg => "Unexpected Error: " ++ msg := by
  unfold observeOf
  rw [if_neg hne, if_neg (by simp [hnx])]

/-! ### Batch-level helper lemmas. -/

/-- When every item's tables load and outputs cover the items, the batch
returns one record per item, positionally matching the per-item
evaluation. -/
theorem batch_ok_aux (loadCsv : String → Except String DataFrame)
    (run : List DataFrame → String → ExecBehavior) (slim : Bool)
    (outs : List String) (tds : List TestData)
    (hlen : tds.length ≤ outs.length)
    (hok : ∀ td ∈ tds, ∃ ds, loadTables loadCsv td.table_paths = Except.ok ds) :
    ∃ rs, mainBatchEval loadCsv run slim outs tds = Except.ok rs ∧
      rs.length = tds.length ∧
      ∀ (i : Nat) (h1 : i < tds.length) (h2 : i < outs.length) (h3 : i < rs.length),
        Except.ok (rs.get ⟨i, h3⟩) =
          eval_outputs_parallel loadCsv run slim (outs.get ⟨i, h2⟩) (tds.get ⟨i, h1⟩) := by
  induction tds generalizing outs with
  | nil =>
    refine ⟨[], ?_, rfl, fun i h1 _ _ => absurd h1 (Nat.not_lt_zero i)⟩
    cases outs <;> rfl
  | cons td tds ih =>
    cases outs with
    | nil => simp at hlen
    | cons o outs =>
      rcases hok td (List.mem_cons_self td tds) with ⟨ds, hds⟩
      rcases ih outs (Nat.le_of_succ_le_succ hlen)
          (fun t ht => hok t (List.mem_cons_of_mem td ht)) with ⟨rs, hrs, hlenrs, hidx⟩
      refine ⟨mkSample run slim o td ds :: rs, ?_, by simp [hlenrs], ?_⟩
      · simp only [mainBatchEval, eval_eq_ok loadCsv run slim o td ds hds, hrs]
      · intro i h1 h2 h3
        cases i with
        | zero => exact (eval_eq_ok loadCsv run slim o td ds hds).symm
        | succ n =>
          exact hidx n (Nat.lt_of_succ_lt_succ h1) (Nat.lt_of_succ_lt_succ h2)
            (Nat.lt_of_succ_lt_succ h3)

/-- When the output list is too short (and item evaluation raises nothing
on its own), the batch aborts with the index error of
`model_outputs[i]`. -/
theorem batch_short_aux (loadCsv : String → Except String DataFrame)
    (run : List DataFrame → String → ExecBehavior) (slim : Bool)
    (outs : List String) (tds : List TestData)
    (hok : ∀ td ∈ tds, ∃ ds, loadTables loadCsv td.table_paths = Except.ok ds)
    (hshort : outs.length < tds.length) :
    mainBatchEval loadCsv run slim outs tds =
      Except.error "IndexError: list index out of range" := by
  induction tds generalizing outs with
  | nil => exact absurd hshort (Nat.not_lt_zero _)
  | cons td tds ih =>
    cases outs with
    | nil => rfl
    | cons o outs =>
      rcases hok td (List.mem_cons_self td tds) with ⟨ds, hds⟩
      have h2 := ih outs (fun t ht => hok t (List.mem_cons_of_mem td ht))
        (Nat.lt_of_succ_lt_succ hshort)
      simp only [mainBatchEval, eval_eq_ok loadCsv run slim o td ds hds, h2]

/-! ### Claim theorems. -/

/-- C5: for every observation string the classified flag is true iff the
observation contains no substring matching `/error|exception/`
case-insensitively; in particular `"   a   b   c"` classifies as pass and
`"ValueError: bad"` classifies as fail. -/
theorem flag_iff_no_error_pattern :
    (∀ s : String,
      execution_eval (ObserveVal.str s) = true ↔ ¬ specErrorMatch s) ∧
    execution_eval (ObserveVal.str "   a   b   c") = true ∧
    execution_eval (ObserveVal.str "ValueError: bad") = false := by
  refine ⟨fun s => ?_, by decide, by decide⟩
  rw [execution_eval_str]
  constructor
  · intro h hm
    rcases hm with ⟨pre, pat, post, hp, hl⟩
    have hE : hasErrorPattern s = true := by
      unfold hasErrorPattern
      rcases hp with rfl | rfl
      · exact Bool.or_eq_true_iff.mpr (Or.inl ((chkInf_iff _ _).mpr ⟨pre, post, hl⟩))
      · exact Bool.or_eq_true_iff.mpr (Or.inr ((chkInf_iff _ _).mpr ⟨pre, post, hl⟩))
    rw [hE] at h
    exact absurd h (by decide)
  · intro h
    cases hE : hasErrorPattern s with
    | false => rfl
    | true =>
      exfalso
      apply h
      unfold hasErrorPattern at hE
      rcases Bool.or_eq_true_iff.mp hE with h1 | h1
      · rcases (chkInf_iff _ _).mp h1 with ⟨pre, post, hl⟩
        exact ⟨pre, _, post, Or.inl rfl, hl⟩
      · rcases (chkInf_iff _ _).mp h1 with ⟨pre, post, hl⟩
        exact ⟨pre, _, post, Or.inr rfl, hl⟩

/-- C9: the classifier is total — on any input where the pattern search
itself fails (every non-string input), `execution_eval` returns rather
than raising, and the result degrades to `flag = true`. -/
theorem classifier_total_degrades_true :
    (∀ (o : ObserveVal) (e : String),
      patternSearch o = Except.error e → execution_eval o = true) ∧
    (∀ desc, execution_eval (ObserveVal.nonStr desc) = true) := by
  constructor
  · intro o e he
    unfold execution_eval
    rw [he]
  · intro desc
    rfl

/-- Witness for C9 at the non-string observation `None`. -/
theorem classifier_total_degrades_true_witness :
    execution_eval (ObserveVal.nonStr "None") = true :=
  classifier_total_degrades_true.1 (ObserveVal.nonStr "None") "TypeError" rfl

/-- C4: an item whose extracted code is empty short-circuits — the
observation is exactly `Code Error: output empty code..`, the flag is
false, and the result does not depend on the execution oracle at all
(execution is never invoked). -/
theorem empty_code_short_circuits
    (loadCsv : String → Except String DataFrame)
    (run run2 : List DataFrame → String → ExecBehavior) (slim : Bool)
    (out : String) (td : TestData) (df : List DataFrame)
    (hdf : loadTables loadCsv td.table_paths = Except.ok df)
    (hcode : (filter_code out).1 = "") :
    resultObserve (eval_outputs_parallel loadCsv run slim out td) =
      some "Code Error: output empty code.." ∧
    resultFlag (eval_outputs_parallel loadCsv run slim out td) = some false ∧
    eval_outputs_parallel loadCsv run2 slim out td =
      eval_outputs_parallel loadCsv run slim out td := by
  have hobs : ∀ r : List DataFrame → String → ExecBehavior,
      observeOf r df (filter_code out).1 = "Code Error: output empty code.." := by
    intro r
    rw [hcode, observeOf_empty]
  refine ⟨?_, ?_, ?_⟩
  · rw [eval_eq_ok loadCsv run slim out td df hdf]
    simp only [resultObserve, mkSample, hobs run]
  · rw [eval_eq_ok loadCsv run slim out td df hdf]
    simp only [resultFlag, mkSample, hobs run]
    decide
  · rw [eval_eq_ok loadCsv run slim out td df hdf,
      eval_eq_ok loadCsv run2 slim out td df hdf]
    simp only [mkSample, hobs run, hobs run2]

/-- Witness for C4: the spec scenario `output_text = "no code here"`. -/
theorem empty_code_short_circuits_witness :
    resultObserve (eval_outputs_parallel okLoad
        (fun _ _ => ExecBehavior.finished (RunValue.other "ok")) false
        "no code here" tdSimple) = some "Code Error: output empty code.." :=
  (empty_code_short_circuits okLoad
    (fun _ _ => ExecBehavior.finished (RunValue.other "ok"))
    (fun _ _ => ExecBehavior.timedOut) false "no code here" tdSimple
    [{ cols := [], rows := [] }] rfl rfl).1

/-- C6: a snippet containing `df.explode("Candidate")` is rejected before
execution — the observation carries the specific rejection message with
flag false, and the result does not consult the execution oracle. -/
theorem explode_rejected_before_execution
    (loadCsv : String → Except String DataFrame)
    (run run2 : List DataFrame → String → ExecBehavior) (slim : Bool)
    (out : String) (td : TestData) (df : List DataFrame)
    (hdf : loadTables loadCsv td.table_paths = Except.ok df)
    (hx : strContains (filter_code out).1 "df.explode(\"Candidate\")" = true) :
    resultObserve (eval_outputs_parallel loadCsv run slim out td) =
      some "Unexpected Error: df.explode error" ∧
    resultFlag (eval_outputs_parallel loadCsv run slim out td) = some false ∧
    eval_outputs_parallel loadCsv run2 slim out td =
      eval_outputs_parallel loadCsv run slim out td := by
  have hobs : ∀ r : List DataFrame → String → ExecBehavior,
      observeOf r df (filter_code out).1 =
        "Unexpected Error: df.explode error" := by
    intro r
    exact observeOf_explode r df _ hx
  refine ⟨?_, ?_, ?_⟩
  · rw [eval_eq_ok loadCsv run slim out td df hdf]
    simp only [resultObserve, mkSample, hobs run]
  · rw [eval_eq_ok loadCsv run slim out td df hdf]
    simp only [resultFlag, mkSample, hobs run]
    decide
  · rw [eval_eq_ok loadCsv run slim out td df hdf,
      eval_eq_ok loadCsv run2 slim out td df hdf]
    simp only [mkSample, hobs run, hobs run2]

/-- Witness for C6 at a fenced snippet holding the hazardous construct. -/
theorem explode_rejected_before_execution_witness :
    resultObserve (eval_outputs_parallel okLoad
        (fun _ _ => ExecBehavior.timedOut) false outExplode tdSimple) =
      some "Unexpected Error: df.explode error" :=
  (explode_rejected_before_execution okLoad
    (fun _ _ => ExecBehavior.timedOut)
    (fun _ _ => ExecBehavior.systemExit "x") false outExplode tdSimple
    [{ cols := [], rows := [] }] rfl (by decide)).1

/-- C1: a snippet whose execution exceeds the 15-second deadline yields
the fixed timeout observation with flag false, and the per-item
evaluation still returns a record (it terminates rather than hanging the
batch). -/
theorem timeout_observation_and_flag
    (loadCsv : String → Except String DataFrame)
    (run : List DataFrame → String → ExecBehavior) (slim : Bool)
    (out : String) (td : TestData) (df : List DataFrame)
    (hdf : loadTables loadCsv td.table_paths = Except.ok df)
    (hne : (filter_code out).1 ≠ "")
    (hnx : strContains (filter_code out).1 "df.explode(\"Candidate\")" = false)
    (hrun : run df ( CODE_PREFIX ++ (filter_code out).1) = ExecBehavior.timedOut) :
    resultObserve (eval_outputs_parallel loadCsv run slim out td) =
      some "Timeout Error: code running time exceed 15s.." ∧
    resultFlag (eval_outputs_parallel loadCsv run slim out td) = some false := by
  have hobs : observeOf run df (filter_code out).1 =
      "Timeout Error: code running time exceed 15s.." := by
    rw [observeOf_run_case run df _ hne hnx, hrun]
  constructor
  · rw [eval_eq_ok loadCsv run slim out td df hdf]
    simp only [resultObserve, mkSample, hobs]
  · rw [eval_eq_ok loadCsv run slim out td df hdf]
    simp only [resultFlag, mkSample, hobs]
    decide

/-- Witness for C1 at an infinite-loop snippet. -/
theorem timeout_observation_and_flag_witness :
    resultObserve (eval_outputs_parallel okLoad
        (fun _ _ => ExecBehavior.timedOut) false outLoop tdSimple) =
      some "Timeout Error: code running time exceed 15s.." :=
  (timeout_observation_and_flag okLoad (fun _ _ => ExecBehavior.timedOut)
    false outLoop tdSimple [{ cols := [], rows := [] }] rfl (by decide)
    (by decide) rfl).1

/-- C2: a snippet raising `SystemExit` is intercepted — the observation is
`SystemExit Error: {message}` with flag false for EVERY message, the
evaluation returns a record, and the batch goes on to process the
subsequent items. -/
theorem system_exit_intercepted
    (loadCsv : String → Except String DataFrame)
    (run : List DataFrame → String → ExecBehavior) (slim : Bool)
    (out : String) (td : TestData) (df : List DataFrame) (msg : String)
    (hdf : loadTables loadCsv td.table_paths = Except.ok df)
    (hne : (filter_code out).1 ≠ "")
    (hnx : strContains (filter_code out).1 "df.explode(\"Candidate\")" = false)
    (hrun : run df ( CODE_PREFIX ++ (filter_code out).1) =
      ExecBehavior.systemExit msg) :
    resultObserve (eval_outputs_parallel loadCsv run slim out td) =
      some ("SystemExit Error: " ++ msg) ∧
    resultFlag (eval_outputs_parallel loadCsv run slim out td) = some false ∧
    ∀ (outs : List String) (tds : List TestData),
      mainBatchEval loadCsv run slim (out :: outs) (td :: tds) =
        match mainBatchEval loadCsv run slim outs tds with
        | Except.ok rs => Except.ok (mkSample run slim out td df :: rs)
        | Except.error e => Except.error e := by
  have hobs : observeOf run df (filter_code out).1 =
      "SystemExit Error: " ++ msg := by
    rw [observeOf_run_case run df _ hne hnx, hrun]
  refine ⟨?_, ?_, ?_⟩
  · rw [eval_eq_ok loadCsv run slim out td df hdf]
    simp only [resultObserve, mkSample, hobs]
  · rw [eval_eq_ok loadCsv run slim out td df hdf]
    simp only [resultFlag, mkSample, hobs]
    rw [execution_eval_append_error "SystemExit Error: " msg (by decide)]
  · intro outs tds
    cases hb : mainBatchEval loadCsv run slim outs tds with
    | error e =>
      simp only [mainBatchEval, eval_eq_ok loadCsv run slim out td df hdf, hb]
    | ok rs =>
      simp only [mainBatchEval, eval_eq_ok loadCsv run slim out td df hdf, hb]

/-- Witness for C2 with the error-free message `0`. -/
theorem system_exit_intercepted_witness :
    resultObserve (eval_outputs_parallel okLoad
        (fun _ _ => ExecBehavior.systemExit "0") false outLoop tdSimple) =
      some ("SystemExit Error: " ++ "0") :=
  (system_exit_intercepted okLoad (fun _ _ => ExecBehavior.systemExit "0")
    false outLoop tdSimple [{ cols := [], rows := [] }] "0" rfl (by decide)
    (by decide) rfl).1

/-- C8: a successful execution producing a table renders only the head
(first five rows) — the preview never exceeds five rows, and rows past
the fifth do not change the rendered observation, so its length is
independent of the table's size. -/
theorem dataframe_preview_head_bounded
    (loadCsv : String → Except String DataFrame)
    (run : List DataFrame → String → ExecBehavior) (slim : Bool)
    (out : String) (td : TestData) (dfs : List DataFrame) (d : DataFrame)
    (hdf : loadTables loadCsv td.table_paths = Except.ok dfs)
    (hne : (filter_code out).1 ≠ "")
    (hnx : strContains (filter_code out).1 "df.explode(\"Candidate\")" = false)
    (hrun : run dfs ( CODE_PREFIX ++ (filter_code out).1) =
      ExecBehavior.finished (RunValue.dataFrame d)) :
    resultObserve (eval_outputs_parallel loadCsv run slim out td) =
      some (DataFrame.head d).to_markdown ∧
    (DataFrame.head d).rows.length ≤ 5 ∧
    ∀ extra : List (List String), 5 ≤ d.rows.length →
      DataFrame.head { cols := d.cols, rows := d.rows ++ extra } =
        DataFrame.head d := by
  have hobs : observeOf run dfs (filter_code out).1 =
      (DataFrame.head d).to_markdown := by
    rw [observeOf_run_case run dfs _ hne hnx, hrun]
  refine ⟨?_, ?_, ?_⟩
  · rw [eval_eq_ok loadCsv run slim out td dfs hdf]
    simp only [resultObserve, mkSample, hobs]
  · simp only [DataFrame.head, List.length_take]
    omega
  · intro extra h5
    have htake : (d.rows ++ extra).take 5 = d.rows.take 5 := by
      rw [List.take_append_eq_append_take, Nat.sub_eq_zero_of_le h5,
        List.take_zero, List.append_nil]
    simp [DataFrame.head, htake]

/-- Witness for C8 at a 10,000-row table: the observation renders exactly
the five-row preview. -/
theorem dataframe_preview_head_bounded_witness :
    resultObserve (eval_outputs_parallel okLoad
        (fun _ _ => ExecBehavior.finished (RunValue.dataFrame bigDf)) false
        outLoop tdSimple) = some (DataFrame.head bigDf).to_markdown ∧
    (DataFrame.head bigDf).to_markdown =
      "| c |\n| --- |\n| v |\n| v |\n| v |\n| v |\n| v |" :=
  ⟨(dataframe_preview_head_bounded okLoad
      (fun _ _ => ExecBehavior.finished (RunValue.dataFrame bigDf)) false
      outLoop tdSimple [{ cols := [], rows := [] }] bigDf rfl (by decide)
      (by decide) rfl).1,
    by decide⟩

/-- C3 counterexample: a two-item batch in which the second item's table
source fails to load produces NO per-item results at all — the load error
aborts the whole batch instead of surfacing in that item's record. -/
theorem batch_aborts_on_item_load_failure :
    batchLen (mainBatchEval cexLoad
        (fun _ _ => ExecBehavior.finished (RunValue.other "42")) false
        ["o1", "o2"] [tdSimple, tdBad]) = none ∧
    mainBatchEval cexLoad
        (fun _ _ => ExecBehavior.finished (RunValue.other "42")) false
        ["o1", "o2"] [tdSimple, tdBad] =
      Except.error "FileNotFoundError: bad.csv" := by
  exact ⟨rfl, rfl⟩

/-- C3 (amended): provided every item's tables load and the outputs cover
the items, the batch returns exactly one record per item, and position
`i` of the output is the evaluation of input item `i` — whatever outcome
(timeout, system exit, exception, empty code) each item had. -/
theorem batch_one_result_per_item_in_order
    (loadCsv : String → Except String DataFrame)
    (run : List DataFrame → String → ExecBehavior) (slim : Bool)
    (outs : List String) (tds : List TestData)
    (hlen : tds.length ≤ outs.length)
    (hok : ∀ td ∈ tds, ∃ ds, loadTables loadCsv td.table_paths = Except.ok ds) :
    batchLen (mainBatchEval loadCsv run slim outs tds) = some tds.length ∧
    ∀ (i : Nat) (h1 : i < tds.length) (h2 : i < outs.length),
      batchGet (mainBatchEval loadCsv run slim outs tds) i =
        resultOpt (eval_outputs_parallel loadCsv run slim
          (outs.get ⟨i, h2⟩) (tds.get ⟨i, h1⟩)) := by
  rcases batch_ok_aux loadCsv run slim outs tds hlen hok with ⟨rs, hrs, hlenrs, hidx⟩
  constructor
  · rw [hrs]
    simp [batchLen, hlenrs]
  · intro i h1 h2
    have h3 : i < rs.length := hlenrs ▸ h1
    rw [hrs]
    show rs.get? i = _
    rw [List.get?_eq_get h3, ← hidx i h1 h2 h3]
    rfl

/-- Witness for the amended C3: a two-item batch where every snippet times
out still yields one record per item. -/
theorem batch_one_result_per_item_in_order_witness :
    batchLen (mainBatchEval okLoad (fun _ _ => ExecBehavior.timedOut) false
        ["x", "y"] [tdSimple, tdSimple]) =
      some [tdSimple, tdSimple].length :=
  (batch_one_result_per_item_in_order okLoad
    (fun _ _ => ExecBehavior.timedOut) false ["x", "y"] [tdSimple, tdSimple]
    (by decide)
    (by intro td htd
        fin_cases htd <;> exact ⟨[{ cols := [], rows := [] }], rfl⟩)).1

/-- C7 counterexample: an item whose only table source fails to load does
NOT get an error observation — the per-item evaluation itself fails, so no
`EvaluationResult` exists for it. -/
theorem load_error_not_contained_cex :
    eval_outputs_parallel cexLoad
        (fun _ _ => ExecBehavior.finished (RunValue.other "1")) false "o" tdBad =
      Except.error "FileNotFoundError: bad.csv" ∧
    resultObserve (eval_outputs_parallel cexLoad
        (fun _ _ => ExecBehavior.finished (RunValue.other "1")) false "o" tdBad) =
      none := by
  exact ⟨rfl, rfl⟩

/-- C7 (amended): the table loads of line 77 run before the `try` block,
so a load error propagates out of `eval_outputs_parallel` unchanged and
aborts any batch containing the item, instead of being converted into
that item's failure observation. -/
theorem load_error_propagates
    (loadCsv : String → Except String DataFrame)
    (run : List DataFrame → String → ExecBehavior) (slim : Bool)
    (out : String) (td : TestData) (e : String)
    (he : loadTables loadCsv td.table_paths = Except.error e) :
    eval_outputs_parallel loadCsv run slim out td = Except.error e ∧
    ∀ (outs : List String) (tds : List TestData),
      mainBatchEval loadCsv run slim (out :: outs) (td :: tds) =
        Except.error e := by
  have h1 : eval_outputs_parallel loadCsv run slim out td = Except.error e := by
    unfold eval_outputs_parallel
    rw [he]
  exact ⟨h1, fun outs tds => by simp only [mainBatchEval, h1]⟩

/-- Witness for the amended C7 at a failing csv source. -/
theorem load_error_propagates_witness :
    mainBatchEval cexLoad (fun _ _ => ExecBehavior.timedOut) true
      ["o"] [tdBad] = Except.error "FileNotFoundError: bad.csv" :=
  (load_error_propagates cexLoad (fun _ _ => ExecBehavior.timedOut) true "o"
    tdBad "FileNotFoundError: bad.csv" rfl).2 [] []

/-- C10 counterexample: with two generated outputs for a single item the
lengths differ, yet the batch does not fail — it produces the per-item
result and silently ignores the surplus output. -/
theorem length_mismatch_still_produces_results :
    (["o1", "o2"].length = 2 ∧ [tdSimple].length = 1) ∧
    batchLen (mainBatchEval okLoad
        (fun _ _ => ExecBehavior.finished (RunValue.other "7")) false
        ["o1", "o2"] [tdSimple]) = some 1 := by
  exact ⟨⟨rfl, rfl⟩, rfl⟩

/-- C10 (amended): iteration runs over the items, so only a SHORTAGE of
generated outputs is fatal — it surfaces immediately as the index error —
while surplus outputs cause no error and one record per item is still
produced. -/
theorem output_shortage_aborts_batch
    (loadCsv : String → Except String DataFrame)
    (run : List DataFrame → String → ExecBehavior) (slim : Bool)
    (outs : List String) (tds : List TestData)
    (hok : ∀ td ∈ tds, ∃ ds, loadTables loadCsv td.table_paths = Except.ok ds) :
    (outs.length < tds.length →
      mainBatchEval loadCsv run slim outs tds =
        Except.error "IndexError: list index out of range") ∧
    (tds.length ≤ outs.length →
      batchLen (mainBatchEval loadCsv run slim outs tds) = some tds.length) := by
  constructor
  · exact fun h => batch_short_aux loadCsv run slim outs tds hok h
  · intro h
    rcases batch_ok_aux loadCsv run slim outs tds h hok with ⟨rs, hrs, hlenrs, _⟩
    rw [hrs]
    simp [batchLen, hlenrs]

/-- Witness for the amended C10: one item, zero outputs. -/
theorem output_shortage_aborts_batch_witness :
    mainBatchEval okLoad (fun _ _ => ExecBehavior.timedOut) false []
      [tdSimple] = Except.error "IndexError: list index out of range" :=
  (output_shortage_aborts_batch okLoad (fun _ _ => ExecBehavior.timedOut)
    false [] [tdSimple]
    (by intro td htd
        fin_cases htd
        exact ⟨[{ cols := [], rows := [] }], rfl⟩)).1
    (by decide)

end TableQAEval
